import Mathlib

/-!
Verification of the face-comparison core of the photo-lelo repository.

The definitions below are a shallow embedding of
`android/.../FaceComparisonModule.java` (the native comparison pipeline) and
`utils/faceVerification.js` (the JavaScript entry points).  Java `double`
arithmetic is idealised as `ℝ`; JavaScript number arithmetic in the
byte-pattern fallback involves no square roots and is embedded in `ℚ`, with
`Option` (`none` = IEEE NaN) wherever its `0/0` divisions make NaN
reachable.  Java `int` values are embedded as `ℕ`/`ℤ` (no intermediate
quantity in the modelled code approaches 2^31 except the cache key, where
the overflow is made explicit).
-/

namespace PhotoLelo

/-- A decoded Android bitmap: dimensions, the hash code of its
`Bitmap.Config`, and the packed ARGB pixel value at each coordinate
(as returned by `Bitmap.getPixel`). -/
structure Bitmap where
  width : ℕ
  height : ℕ
  config : ℕ
  pixel : ℕ → ℕ → ℕ

/-- An `android.graphics.Rect` face bounding box (`left`, `top`, `right`,
`bottom`), as produced by ML Kit's `Face.getBoundingBox`. -/
structure Rect where
  left : ℤ
  top : ℤ
  right : ℤ
  bottom : ℤ
  deriving DecidableEq

/-- `(pixel >> 16) & 0xff` — the red channel of a packed ARGB int. -/
def getR (p : ℕ) : ℕ := p / 2 ^ 16 % 2 ^ 8

/-- `(pixel >> 8) & 0xff` — the green channel of a packed ARGB int. -/
def getG (p : ℕ) : ℕ := p / 2 ^ 8 % 2 ^ 8

/-- `pixel & 0xff` — the blue channel of a packed ARGB int. -/
def getB (p : ℕ) : ℕ := p % 2 ^ 8

/-- `isSkinTone` (FaceComparisonModule.java, lines 563–568): the fixed
skin-classification rule. -/
def isSkinTone (r g b : ℕ) : Bool :=
  decide (95 < r ∧ 40 < g ∧ 20 < b ∧ g < r ∧ b < r ∧
    15 < ((r : ℤ) - g).natAbs ∧ 15 < (r : ℤ) - min (g : ℤ) (b : ℤ))

/-- The coordinates visited by a Java loop `for (i = start; i < stop; i += 4)`
(the every-4th-pixel sampling used by the spatial and histogram extractors). -/
def strided4 (start stop : ℕ) : List ℕ :=
  (List.range stop).filter fun i => decide (start ≤ i) && decide ((i - start) % 4 = 0)

/-- The coordinates visited by a Java loop `for (i = 0; i < n; i += step)`. -/
def strided (n step : ℕ) : List ℕ :=
  (List.range n).filter fun i => decide (i % step = 0)

/-- The pixels sampled by a double loop over `y` (outer) and `x` (inner),
both with stride `step` starting at 0. -/
def sampledPixels (bm : Bitmap) (step : ℕ) : List ℕ :=
  (strided bm.height step).flatMap fun y => (strided bm.width step).map fun x => bm.pixel x y

/-- `extractOptimizedSkinTone` (lines 397–436): a 16-element section; indices
0–6 hold per-channel mean and standard deviation of the skin-classified
sampled pixels (normalised by 255) and the skin-pixel fraction, the rest stay
0 (as does everything when no sampled pixel classifies as skin).
`Math.sqrt` on the (exactly nonnegative) variance is `Real.sqrt`. -/
noncomputable def extractOptimizedSkinTone (bm : Bitmap) : List ℝ :=
  let step := max 1 (min bm.width bm.height / 50)
  let skin := (sampledPixels bm step).filter fun p => isSkinTone (getR p) (getG p) (getB p)
  let count := skin.length
  let sumR := (skin.map getR).sum
  let sumG := (skin.map getG).sum
  let sumB := (skin.map getB).sum
  let sumR2 := (skin.map fun p => getR p * getR p).sum
  let sumG2 := (skin.map fun p => getG p * getG p).sum
  let sumB2 := (skin.map fun p => getB p * getB p).sum
  let meanR : ℝ := (sumR : ℝ) / count
  let meanG : ℝ := (sumG : ℝ) / count
  let meanB : ℝ := (sumB : ℝ) / count
  List.ofFn fun i : Fin 16 =>
    if count = 0 then 0 else
    match (i : ℕ) with
    | 0 => meanR / 255
    | 1 => meanG / 255
    | 2 => meanB / 255
    | 3 => Real.sqrt ((sumR2 : ℝ) / count - meanR * meanR) / 255
    | 4 => Real.sqrt ((sumG2 : ℝ) / count - meanG * meanG) / 255
    | 5 => Real.sqrt ((sumB2 : ℝ) / count - meanB * meanB) / 255
    | 6 => (count : ℝ) / ((bm.width / step) * (bm.height / step) : ℕ)
    | _ => 0

/-- `extractOptimizedSpatialFeatures` (lines 438–478): a 27-element section;
entry `(gy*3+gx)*3 + c` is the mean of channel `c` over every-4th-pixel
samples of grid cell `(gx, gy)` of a 3×3 partition, normalised by 255
(cells left at 0 when they contain no sample point). -/
noncomputable def extractOptimizedSpatialFeatures (bm : Bitmap) : List ℝ :=
  let cellWidth := bm.width / 3
  let cellHeight := bm.height / 3
  List.ofFn fun i : Fin 27 =>
    let cellIdx := (i : ℕ) / 3
    let gy := cellIdx / 3
    let gx := cellIdx % 3
    let startX := gx * cellWidth
    let endX := min ((gx + 1) * cellWidth) bm.width
    let startY := gy * cellHeight
    let endY := min ((gy + 1) * cellHeight) bm.height
    let pts := (strided4 startY endY).flatMap fun y =>
      (strided4 startX endX).map fun x => bm.pixel x y
    let count := pts.length
    if count = 0 then 0 else
    match (i : ℕ) % 3 with
    | 0 => ((pts.map getR).sum : ℝ) / (count * 255)
    | 1 => ((pts.map getG).sum : ℝ) / (count * 255)
    | _ => ((pts.map getB).sum : ℝ) / (count * 255)

/-- `extractOptimizedHistogram` (lines 480–511): a 24-element section; 8
equal-width bins per channel (R bins at 0–7, G at 8–15, B at 16–23), each
value the fraction of every-4th-pixel samples falling in that bin. -/
noncomputable def extractOptimizedHistogram (bm : Bitmap) : List ℝ :=
  let pts := (strided4 0 bm.height).flatMap fun y =>
    (strided4 0 bm.width).map fun x => bm.pixel x y
  let totalPixels := pts.length
  List.ofFn fun i : Fin 24 =>
    let chan := if (i : ℕ) < 8 then pts.map getR
      else if (i : ℕ) < 16 then pts.map getG else pts.map getB
    let bin := (i : ℕ) % 8
    (((chan.filter fun v => decide (v / 32 = bin)).length : ℝ)) / totalPixels

/-- `getGrayscale` (lines 696–701): `(int)(0.299*r + 0.587*g + 0.114*b)`,
embedded as the exact rational floor `(299r + 587g + 114b) / 1000`.  (The
double rounding of the Java sum can differ from the exact floor by one at
integer boundaries; only the lengths of the two sections below matter in the
theorems, so this does not affect any claim.) -/
def getGrayscale (p : ℕ) : ℕ :=
  (299 * getR p + 587 * getG p + 114 * getB p) / 1000

/-- The interior coordinates `(x, y)` visited by the texture/edge loops
(`1 ≤ x < width-1`, `1 ≤ y < height-1`, `y` outer). -/
def interiorCoords (bm : Bitmap) : List (ℕ × ℕ) :=
  ((List.range bm.height).filter fun y => decide (1 ≤ y) && decide (y + 1 < bm.height)).flatMap
    fun y => ((List.range bm.width).filter fun x =>
      decide (1 ≤ x) && decide (x + 1 < bm.width)).map fun x => (x, y)

/-- The 4-bit local binary pattern of lines 649–657. -/
def texturePattern (bm : Bitmap) (x y : ℕ) : ℕ :=
  let c := getGrayscale (bm.pixel x y)
  (if getGrayscale (bm.pixel (x - 1) (y - 1)) ≥ c then 1 else 0) +
  (if getGrayscale (bm.pixel x (y - 1)) ≥ c then 2 else 0) +
  (if getGrayscale (bm.pixel (x + 1) (y - 1)) ≥ c then 4 else 0) +
  (if getGrayscale (bm.pixel (x + 1) y) ≥ c then 8 else 0)

/-- `extractTextureFeatures` (lines 642–667): 16-bin histogram of the local
binary patterns of the interior pixels, each bin divided by
`(width-2)*(height-2)` (computed in Java `int` arithmetic, hence `ℤ`).
This method exists in the source but is never called by the pipeline. -/
noncomputable def extractTextureFeatures (bm : Bitmap) : List ℝ :=
  let total : ℤ := ((bm.width : ℤ) - 2) * ((bm.height : ℤ) - 2)
  List.ofFn fun i : Fin 16 =>
    (((interiorCoords bm).filter fun p =>
      decide (texturePattern bm p.1 p.2 % 16 = (i : ℕ))).length : ℝ) / (total : ℝ)

/-- The Sobel magnitude of lines 676–683: `(int) Math.sqrt(gx*gx + gy*gy)`,
which equals `Nat.sqrt` of the (integer) sum of squares. -/
def sobelMagnitude (bm : Bitmap) (x y : ℕ) : ℕ :=
  let g : ℕ → ℕ → ℤ := fun a b => (getGrayscale (bm.pixel a b) : ℤ)
  let gx : ℤ := -g (x - 1) (y - 1) + g (x + 1) (y - 1)
    - 2 * g (x - 1) y + 2 * g (x + 1) y
    - g (x - 1) (y + 1) + g (x + 1) (y + 1)
  let gy : ℤ := -g (x - 1) (y - 1) - 2 * g x (y - 1) - g (x + 1) (y - 1)
    + g (x - 1) (y + 1) + 2 * g x (y + 1) + g (x + 1) (y + 1)
  Nat.sqrt (gx * gx + gy * gy).toNat

/-- `extractEdgeFeatures` (lines 669–694): 16-bin histogram of the Sobel
magnitudes (bin `min 15 (magnitude / 16)`) over the interior pixels, each bin
divided by `(width-2)*(height-2)`.  Also never called by the pipeline. -/
noncomputable def extractEdgeFeatures (bm : Bitmap) : List ℝ :=
  let total : ℤ := ((bm.width : ℤ) - 2) * ((bm.height : ℤ) - 2)
  List.ofFn fun i : Fin 16 =>
    (((interiorCoords bm).filter fun p =>
      decide (min 15 (sobelMagnitude bm p.1 p.2 / 16) = (i : ℕ))).length : ℝ) / (total : ℝ)

/-- `System.arraycopy(src, 0, dest, destPos, src.length)`: succeeds with the
spliced array when the destination range fits, and aborts with
`ArrayIndexOutOfBoundsException` otherwise. -/
def arraycopy (src dest : List ℝ) (destPos : ℕ) : Except String (List ℝ) :=
  if destPos + src.length ≤ dest.length then
    Except.ok (dest.take destPos ++ src ++ dest.drop (destPos + src.length))
  else Except.error "ArrayIndexOutOfBoundsException"

/-- The compute part of `extractFaceFeatures` (lines 368–389): allocate
`new double[64]`, then copy the skin-tone, spatial and histogram sections at
running index 0, 0+16, 0+16+27.  Exceptions become `Except.error` (the Java
callers catch them and reject the pending promise). -/
noncomputable def computeFaceFeatures (bm : Bitmap) : Except String (List ℝ) :=
  let features : List ℝ := List.replicate 64 0
  let skinTone := extractOptimizedSkinTone bm
  match arraycopy skinTone features 0 with
  | Except.error e => Except.error e
  | Except.ok f1 =>
    let spatial := extractOptimizedSpatialFeatures bm
    match arraycopy spatial f1 (0 + skinTone.length) with
    | Except.error e => Except.error e
    | Except.ok f2 =>
      let histogram := extractOptimizedHistogram bm
      match arraycopy histogram f2 (0 + skinTone.length + spatial.length) with
      | Except.error e => Except.error e
      | Except.ok f3 => Except.ok f3

/-- The ordered sections that `extractFaceFeatures` concatenates into its
destination array (source lines 372–384): skin tone, then spatial colour,
then histogram. -/
noncomputable def faceFeatureSections (bm : Bitmap) : List (List ℝ) :=
  [extractOptimizedSkinTone bm, extractOptimizedSpatialFeatures bm,
   extractOptimizedHistogram bm]

/-- `generateCacheKey` (lines 392–395):
`String.valueOf(width * height * config.hashCode())`, a Java `int` product
(hence the explicit wrap-around modulus); it does not depend on any pixel
value. -/
def generateCacheKey (bm : Bitmap) : ℕ :=
  bm.width * bm.height * bm.config % 2 ^ 32

/-- The feature cache, most recently inserted entry first. -/
abbrev FeatureCache := List (ℕ × List ℝ)

/-- `LruCache.get`: the value stored under a key, if any.  (The recency
bookkeeping of a hit has no observable effect here and is omitted.) -/
def cacheGet (cache : FeatureCache) (key : ℕ) : Option (List ℝ) :=
  (cache.find? fun e => e.1 == key).map fun e => e.2

/-- Total size of the cache in the units of the module's `sizeOf` override:
8 bytes per stored double (lines 56–61). -/
def cacheSizeBytes (cache : FeatureCache) : ℕ :=
  (cache.map fun e => 8 * e.2.length).sum

/-- `LruCache.trimToSize`: evict eldest entries while the total size exceeds
the maximum. -/
def trimToSize (maxSize : ℕ) (cache : FeatureCache) : FeatureCache :=
  match cache with
  | [] => []
  | a :: l =>
    if cacheSizeBytes (a :: l) ≤ maxSize then a :: l
    else trimToSize maxSize (a :: l).dropLast
termination_by cache.length
decreasing_by simp [List.length_dropLast]

/-- `LruCache.put` into a cache created with `maxSize = CACHE_SIZE = 10`
units: insert (replacing the key) and trim.  Since every stored vector
occupies `8 * length` units, any put of the 64-element feature vector
immediately evicts everything, the new entry included. -/
def cachePut (key : ℕ) (v : List ℝ) (cache : FeatureCache) : FeatureCache :=
  trimToSize 10 ((key, v) :: cache.filter fun e => e.1 != key)

/-- `extractFaceFeatures` (lines 359–390) with the module's cache state made
explicit: consult the cache first, otherwise compute and (on success) cache
the result. -/
noncomputable def extractFaceFeaturesC (cache : FeatureCache) (bm : Bitmap) :
    Except String (List ℝ) × FeatureCache :=
  let key := generateCacheKey bm
  match cacheGet cache key with
  | some v => (Except.ok v, cache)
  | none =>
    match computeFaceFeatures bm with
    | Except.error e => (Except.error e, cache)
    | Except.ok f => (Except.ok f, cachePut key f cache)

/-- `calculateEuclideanDistance` (lines 703–711): the loop runs to
`min(features1.length, features2.length)`, which is exactly what `List.zip`
yields — longer vectors are silently truncated. -/
noncomputable def calculateEuclideanDistance (features1 features2 : List ℝ) : ℝ :=
  Real.sqrt (((features1.zip features2).map fun p => (p.1 - p.2) * (p.1 - p.2)).sum)

/-- The result map built by the native module: `isMatch` and `confidence`
(the `message` string is a fixed template over these two and carries no
further information). -/
structure VerificationResult where
  isMatch : Bool
  confidence : ℝ

/-- The face-region scoring and decision of `compareFaces`
(lines 154–180): distance, `min(distance/5.0, 1.0)`, confidence, and the
70% match threshold. -/
noncomputable def faceCompareResult (features1 features2 : List ℝ) : VerificationResult :=
  let distance := calculateEuclideanDistance features1 features2
  let normalizedDistance := min (distance / 5) 1
  let confidence := (1 - normalizedDistance) * 100
  { isMatch := decide ((70 : ℝ) ≤ confidence), confidence := confidence }

/-- The fallback scoring and decision of `performFallbackComparison`
(lines 748–765): `min(distance/3.5, 1.0)` and the 85% match threshold. -/
noncomputable def fallbackCompareResult (features1 features2 : List ℝ) : VerificationResult :=
  let distance := calculateEuclideanDistance features1 features2
  let normalizedDistance := min (distance / 3.5) 1
  let confidence := (1 - normalizedDistance) * 100
  { isMatch := decide ((85 : ℝ) ≤ confidence), confidence := confidence }

/-- `getLargestFace` (lines 208–222): the first face whose bounding-box area
strictly exceeds all earlier ones (`largest` starts at the first face,
`maxArea` at 0). -/
def getLargestFace (faces : List Rect) : Rect :=
  (faces.foldl
    (fun acc f =>
      if (f.right - f.left) * (f.bottom - f.top) > acc.2
      then (f, (f.right - f.left) * (f.bottom - f.top)) else acc)
    (faces.headD ⟨0, 0, 0, 0⟩, 0)).1

/-- The face padding of `extractFaceRegion`, line 229:
`(int)(Math.max(bounds.width(), bounds.height()) * 0.3)`.  The Java cast
truncates toward zero and `max * 0.3` rounds to a double strictly between
the neighbouring integer boundaries for every `int` magnitude, so this is
exactly the truncating integer division `3 * max / 10`. -/
def facePadding (bounds : Rect) : ℤ :=
  Int.tdiv (3 * max (bounds.right - bounds.left) (bounds.bottom - bounds.top)) 10

/-- `left = Math.max(0, bounds.left - padding)` (line 231). -/
def clippedLeft (bounds : Rect) : ℤ := max 0 (bounds.left - facePadding bounds)

/-- `top = Math.max(0, bounds.top - padding)` (line 232). -/
def clippedTop (bounds : Rect) : ℤ := max 0 (bounds.top - facePadding bounds)

/-- `right = Math.min(bitmap.getWidth(), bounds.right + padding)` (line 233). -/
def clippedRight (bm : Bitmap) (bounds : Rect) : ℤ :=
  min (bm.width : ℤ) (bounds.right + facePadding bounds)

/-- `bottom = Math.min(bitmap.getHeight(), bounds.bottom + padding)` (line 234). -/
def clippedBottom (bm : Bitmap) (bounds : Rect) : ℤ :=
  min (bm.height : ℤ) (bounds.bottom + facePadding bounds)

/-- `extractFaceRegion` (lines 224–251): pad the box on all sides by 30% of
`max(width, height)`, clip to the bitmap bounds, and return `null` (`none`)
when the clipped rectangle is degenerate; otherwise crop. -/
def extractFaceRegion (bm : Bitmap) (bounds : Rect) : Option Bitmap :=
  let left := clippedLeft bounds
  let top := clippedTop bounds
  let right := clippedRight bm bounds
  let bottom := clippedBottom bm bounds
  let width := right - left
  let height := bottom - top
  if width ≤ 0 ∨ height ≤ 0 then none
  else some ⟨width.toNat, height.toNat, bm.config,
    fun x y => bm.pixel (left.toNat + x) (top.toNat + y)⟩

/-- Modelled from the spec: `Bitmap.createScaledBitmap(bm, 300, 300, true)`
is Android platform code absent from the repository; the spec (§4.3) only
requires resizing the whole source grid to a fixed 300×300 square.  The
resampling kernel is embedded as index remapping; no theorem below depends
on the resampled pixel values. -/
def createScaledBitmap (bm : Bitmap) (targetW targetH : ℕ) : Bitmap :=
  ⟨targetW, targetH, bm.config,
   fun x y => bm.pixel (x * bm.width / targetW) (y * bm.height / targetH)⟩

/-- `performFallbackComparison` (lines 731–773): scale both images to
300×300, extract features from each, score with the 3.5 scale and the 85%
threshold; any exception is caught and rejects the promise. -/
noncomputable def performFallbackComparison (cache : FeatureCache) (bm1 bm2 : Bitmap) :
    Except String VerificationResult × FeatureCache :=
  let resized1 := createScaledBitmap bm1 300 300
  let resized2 := createScaledBitmap bm2 300 300
  match extractFaceFeaturesC cache resized1 with
  | (Except.error e, c1) => (Except.error ("Fallback comparison failed: " ++ e), c1)
  | (Except.ok f1, c1) =>
    match extractFaceFeaturesC c1 resized2 with
    | (Except.error e, c2) => (Except.error ("Fallback comparison failed: " ++ e), c2)
    | (Except.ok f2, c2) => (Except.ok (fallbackCompareResult f1 f2), c2)

/-- The native `compareFaces` entry point (lines 69–206) with its external
effects as inputs: the two `loadAndOrientBitmap` results (`null` on any load
failure) and the two detector outcomes (`Except.error` for a detector fault,
`Except.ok faces` otherwise; the second detection only runs when the first
succeeds with at least one face, exactly as the nested listeners do).
Every rejection of the React Native promise is an `Except.error`. -/
noncomputable def nativeCompareFaces (cache : FeatureCache)
    (load1 load2 : Option Bitmap) (det1 det2 : Except String (List Rect)) :
    Except String VerificationResult × FeatureCache :=
  match load1, load2 with
  | some bm1, some bm2 =>
    (match det1 with
     | Except.error e => (Except.error ("Face detection failed: " ++ e), cache)
     | Except.ok faces1 =>
       if faces1.isEmpty then performFallbackComparison cache bm1 bm2
       else
         match det2 with
         | Except.error e => (Except.error ("Face detection failed: " ++ e), cache)
         | Except.ok faces2 =>
           if faces2.isEmpty then performFallbackComparison cache bm1 bm2
           else
             match extractFaceRegion bm1 (getLargestFace faces1),
                 extractFaceRegion bm2 (getLargestFace faces2) with
             | some faceBitmap1, some faceBitmap2 =>
               (match extractFaceFeaturesC cache faceBitmap1 with
                | (Except.error e, c1) => (Except.error e, c1)
                | (Except.ok f1, c1) =>
                  match extractFaceFeaturesC c1 faceBitmap2 with
                  | (Except.error e, c2) => (Except.error e, c2)
                  | (Except.ok f2, c2) => (Except.ok (faceCompareResult f1 f2), c2))
             | _, _ => (Except.error "Failed to extract face regions", cache))
  | _, _ => (Except.error "Failed to load images", cache)

/-! ## The JavaScript layer (`utils/faceVerification.js`)

Base64 strings are embedded as `List ℕ` of character codes.  JS numbers in
the byte-pattern fallback are exact rationals here with one exception: the
function's two `0/0` divisions produce IEEE NaN, which is represented
explicitly — the function returns `Option ℚ`, `none` standing for a NaN
confidence, and every place NaN would propagate is modelled as such. -/

/-- JS string indexing `s[i]` with a JS number index: a character for a
whole number in range, `undefined` (here `none`) otherwise — in particular
for the fractional indices the third sample chunk produces. -/
def jsIndex (s : List ℕ) (i : ℚ) : Option ℕ :=
  if i.den = 1 ∧ 0 ≤ i.num ∧ i.num < (s.length : ℤ) then s.getD i.num.toNat 0 else none

/-- The IEEE-754 double value of `samplePoints / 3 = 100 / 3` — JS computes
the rounded double 33.333333333333336, not the exact rational — written as
the exact dyadic `4691249611844267 / 2^47`. -/
def jsSamplePointsThird : ℚ := 4691249611844267 / 140737488355328

/-- The `checkPoints` array of `optimizedFallbackComparison`
(faceVerification.js, lines 56–60): three chunks of
`Array.from({length: samplePoints/3})`, i.e. `⌊33.33…⌋ = 33` indices each —
start positions `i*step`, middle positions `⌊minLength/2⌋ + i*step`, and end
positions `minLength - (samplePoints/3 - i)*step` (generally fractional,
since `samplePoints/3` is not an integer) — filtered to `i < minLength`.
The double roundings JS performs inside the third chunk's products perturb
those positions by under one ulp; no theorem below depends on any sample
position other than position 0 and on the final filter. -/
def jsCheckPoints (img1 img2 : List ℕ) : List ℚ :=
  let minLength := min img1.length img2.length
  let step := minLength / 100
  let chunkLen := ⌊jsSamplePointsThird⌋.toNat
  ((List.range chunkLen).map (fun i => ((i * step : ℕ) : ℚ)) ++
   (List.range chunkLen).map (fun i => ((minLength / 2 + i * step : ℕ) : ℚ)) ++
   (List.range chunkLen).map (fun i =>
     (minLength : ℚ) - (jsSamplePointsThird - (i : ℚ)) * (step : ℚ))).filter
    fun i => decide (i < (minLength : ℚ))

/-- `optimizedFallbackComparison` (faceVerification.js, lines 36–74): size
similarity with an unclamped early return below 0.5, then pattern matching
over the sample points (the third chunk's fractional positions index as
`undefined` on both sides and hence count as matches, exactly as in JS).

NaN (`none`) arises exactly from the two `0/0` divisions and nowhere else
(both divisions have a zero numerator whenever their divisor is zero, so no
infinity can arise):
* both inputs empty — `sizeDiff / avgSize` is `0/0`; the resulting NaN size
  similarity compares false against 0.5, falls into the main branch, and
  propagates through `*`, `+` and `Math.min(NaN, 100)` to a NaN confidence;
* an empty `checkPoints` array — `matchCount / checkPoints.length` is
  `0/0`, and the NaN pattern similarity propagates the same way. -/
def optimizedFallbackComparison (img1 img2 : List ℕ) : Option ℚ :=
  let size1 : ℚ := img1.length
  let size2 : ℚ := img2.length
  let sizeDiff := |size1 - size2|
  let avgSize := (size1 + size2) / 2
  if avgSize = 0 then none
  else
    let sizeSimilarity := 1 - sizeDiff / avgSize
    if sizeSimilarity < 0.5 then some (sizeSimilarity * 100)
    else
      let checkPoints := jsCheckPoints img1 img2
      let matchCount :=
        (checkPoints.filter fun i => decide (jsIndex img1 i = jsIndex img2 i)).length
      if checkPoints.length = 0 then none
      else
        let patternSimilarity : ℚ := (matchCount : ℚ) / (checkPoints.length : ℚ)
        let confidence := (sizeSimilarity * 0.2 + patternSimilarity * 0.8) * 100
        some (min confidence 100)

/-- The result object the JS entry points resolve with: `confidence` is a
JS number, `none` standing for NaN (which the byte-pattern fallback can
produce); `message` is a fixed template over the other fields. -/
structure JsVerificationResult where
  isMatch : Bool
  confidence : Option ℝ

/-- JS `compareFaces` (lines 77–127) with its awaited effects as inputs: the
native module call (`none` when the module is unavailable, `some (.error _)`
when its promise rejects) and the two base64 file reads.  The surrounding
`try/catch` makes the function total: every failure resolves with
`isMatch = false`, `confidence = 0`.  A NaN fallback confidence compares
false against the 45 threshold (`NaN >= 45` is false in JS) and is passed
through into the resolved object. -/
noncomputable def jsCompareFaces (native : Option (Except String VerificationResult))
    (img1 img2 : Except String (List ℕ)) : JsVerificationResult :=
  match native with
  | some (Except.ok r) => { isMatch := r.isMatch, confidence := some r.confidence }
  | some (Except.error _) => { isMatch := false, confidence := some 0 }
  | none =>
    match img1, img2 with
    | Except.ok s1, Except.ok s2 =>
      match optimizedFallbackComparison s1 s2 with
      | some fallbackConfidence =>
        { isMatch := decide ((45 : ℚ) ≤ fallbackConfidence),
          confidence := some (fallbackConfidence : ℝ) }
      | none => { isMatch := false, confidence := none }
    | _, _ => { isMatch := false, confidence := some 0 }

/-- `validateFaceInImage` (lines 130–146): the `RNFS.stat` outcome is the
input; a failed stat is `false`, otherwise the size in KB must lie in
[10, 10240]. -/
def validateFaceInImage (stat : Except String ℕ) : Bool :=
  match stat with
  | Except.error _ => false
  | Except.ok size =>
    let fileSizeKB : ℚ := (size : ℚ) / 1024
    decide (¬(fileSizeKB < 10 ∨ 10240 < fileSizeKB))

/-- `verifyFaceOffline` (lines 149–186): validate both images (fail-closed),
then defer to `compareFaces`; its own `try/catch` again makes it total. -/
noncomputable def verifyFaceOffline (stat1 stat2 : Except String ℕ)
    (native : Option (Except String VerificationResult))
    (img1 img2 : Except String (List ℕ)) : JsVerificationResult :=
  if validateFaceInImage stat1 = false then { isMatch := false, confidence := some 0 }
  else if validateFaceInImage stat2 = false then { isMatch := false, confidence := some 0 }
  else jsCompareFaces native img1 img2

/-! ## Spec-side definitions (for refinement comparisons)

These two definitions follow the words of the specification, not the source,
and exist only to be compared against the source-derived definitions
above. -/

/-- Per spec §4.6: the Euclidean distance over the *full* vectors, written
index-by-index over the whole length of the first vector. -/
noncomputable def specEuclideanDistance (v1 v2 : List ℝ) : ℝ :=
  Real.sqrt ((List.ofFn fun i : Fin v1.length =>
    (v1.get i - v2.getD (i : ℕ) 0) * (v1.get i - v2.getD (i : ℕ) 0)).sum)

/-- Per spec §4.6: mismatched lengths are a `ComparisonError`; otherwise
`confidence = (1 - min(distance / scale, 1)) * 100`. -/
noncomputable def specSimilarityScore (scale : ℝ) (v1 v2 : List ℝ) : Except String ℝ :=
  if v1.length = v2.length then
    Except.ok ((1 - min (specEuclideanDistance v1 v2 / scale) 1) * 100)
  else Except.error "ComparisonError"

/-- Per spec §4.4: the five-section feature layout — skin tone, spatial
colour grid, colour histogram, local texture pattern histogram, edge
magnitude histogram — concatenated in this order (using the repository's own
section extractors, including the two it never calls). -/
noncomputable def specFiveSectionLayout (bm : Bitmap) : List ℝ :=
  extractOptimizedSkinTone bm ++ extractOptimizedSpatialFeatures bm ++
  extractOptimizedHistogram bm ++ extractTextureFeatures bm ++ extractEdgeFeatures bm

/-! ## Helper lemmas -/

/-- The skin-tone section always has 16 entries. -/
lemma length_extractOptimizedSkinTone (bm : Bitmap) :
    (extractOptimizedSkinTone bm).length = 16 := by
  simp only [extractOptimizedSkinTone, List.length_ofFn]

/-- The spatial section always has 27 entries. -/
lemma length_extractOptimizedSpatialFeatures (bm : Bitmap) :
    (extractOptimizedSpatialFeatures bm).length = 27 := by
  simp only [extractOptimizedSpatialFeatures, List.length_ofFn]

/-- The histogram section always has 24 entries. -/
lemma length_extractOptimizedHistogram (bm : Bitmap) :
    (extractOptimizedHistogram bm).length = 24 := by
  simp only [extractOptimizedHistogram, List.length_ofFn]

/-- The texture section always has 16 entries. -/
lemma length_extractTextureFeatures (bm : Bitmap) :
    (extractTextureFeatures bm).length = 16 := by
  simp only [extractTextureFeatures, List.length_ofFn]

/-- The edge section always has 16 entries. -/
lemma length_extractEdgeFeatures (bm : Bitmap) :
    (extractEdgeFeatures bm).length = 16 := by
  simp only [extractEdgeFeatures, List.length_ofFn]

/-- The feature computation aborts on every input: the third `arraycopy`
would write positions 43..66 of a 64-element array. -/
lemma computeFaceFeatures_error (bm : Bitmap) :
    computeFaceFeatures bm = Except.error "ArrayIndexOutOfBoundsException" := by
  unfold computeFaceFeatures
  simp only [arraycopy, length_extractOptimizedSkinTone,
    length_extractOptimizedSpatialFeatures, length_extractOptimizedHistogram,
    List.length_replicate, List.length_append, List.length_take, List.length_drop]
  norm_num [length_extractOptimizedSkinTone, length_extractOptimizedSpatialFeatures,
    length_extractOptimizedHistogram]

/-- With the (always-reachable) empty cache state, `extractFaceFeatures`
aborts and leaves the cache empty. -/
lemma extractFaceFeaturesC_nil (bm : Bitmap) :
    extractFaceFeaturesC [] bm = (Except.error "ArrayIndexOutOfBoundsException", []) := by
  simp [extractFaceFeaturesC, cacheGet, computeFaceFeatures_error]

/-- The fallback comparison aborts on every pair of bitmaps, because feature
extraction aborts on the 300×300 resizes. -/
lemma performFallbackComparison_nil (bm1 bm2 : Bitmap) :
    performFallbackComparison [] bm1 bm2 =
      (Except.error "Fallback comparison failed: ArrayIndexOutOfBoundsException", []) := by
  simp only [performFallbackComparison, extractFaceFeaturesC_nil]
  rfl

/-- From the initial (empty, and forever empty) cache state, every native
comparison rejects, whichever path it takes. -/
lemma nativeCompareFaces_error (load1 load2 : Option Bitmap)
    (det1 det2 : Except String (List Rect)) :
    ∃ e, nativeCompareFaces [] load1 load2 det1 det2 = (Except.error e, []) := by
  cases load1 with
  | none => exact ⟨"Failed to load images", rfl⟩
  | some bm1 =>
    cases load2 with
    | none => exact ⟨"Failed to load images", rfl⟩
    | some bm2 =>
      cases det1 with
      | error e => exact ⟨"Face detection failed: " ++ e, rfl⟩
      | ok faces1 =>
        cases hf1 : faces1.isEmpty with
        | true =>
          exact ⟨"Fallback comparison failed: ArrayIndexOutOfBoundsException",
            by simp only [nativeCompareFaces, hf1, if_true, performFallbackComparison_nil]⟩
        | false =>
          cases det2 with
          | error e =>
            exact ⟨"Face detection failed: " ++ e,
              by simp only [nativeCompareFaces, hf1, Bool.false_eq_true, if_false]⟩
          | ok faces2 =>
            cases hf2 : faces2.isEmpty with
            | true =>
              exact ⟨"Fallback comparison failed: ArrayIndexOutOfBoundsException",
                by simp only [nativeCompareFaces, hf1, hf2, Bool.false_eq_true, if_false,
                  if_true, performFallbackComparison_nil]⟩
            | false =>
              cases hr1 : extractFaceRegion bm1 (getLargestFace faces1) with
              | none =>
                exact ⟨"Failed to extract face regions",
                  by simp only [nativeCompareFaces, hf1, hf2, Bool.false_eq_true, if_false, hr1]⟩
              | some fb1 =>
                cases hr2 : extractFaceRegion bm2 (getLargestFace faces2) with
                | none =>
                  exact ⟨"Failed to extract face regions",
                    by simp only [nativeCompareFaces, hf1, hf2, Bool.false_eq_true, if_false,
                      hr1, hr2]⟩
                | some fb2 =>
                  exact ⟨"ArrayIndexOutOfBoundsException",
                    by simp only [nativeCompareFaces, hf1, hf2, Bool.false_eq_true, if_false,
                      hr1, hr2, extractFaceFeaturesC_nil]⟩

/-! ## Claims -/

/-- **C2.** For every input region bitmap, the native `extractFaceFeatures`
aborts with an array-index-out-of-bounds error: it copies a 16-element
skin-tone section, a 27-element spatial section and a 24-element histogram
section — 67 values — into a 64-element array; consequently, from the
module's (permanently empty) initial cache state, the native `compareFaces`
never resolves on either the face-region or the fallback path. -/
theorem claim2_extract_always_aborts :
    (∀ bm : Bitmap,
      (extractOptimizedSkinTone bm).length = 16 ∧
      (extractOptimizedSpatialFeatures bm).length = 27 ∧
      (extractOptimizedHistogram bm).length = 24) ∧
    (∀ bm : Bitmap,
      extractFaceFeaturesC [] bm = (Except.error "ArrayIndexOutOfBoundsException", [])) ∧
    (∀ (load1 load2 : Option Bitmap) (det1 det2 : Except String (List Rect)),
      ∃ e, nativeCompareFaces [] load1 load2 det1 det2 = (Except.error e, [])) := by
  exact ⟨fun bm => ⟨length_extractOptimizedSkinTone bm,
      length_extractOptimizedSpatialFeatures bm, length_extractOptimizedHistogram bm⟩,
    extractFaceFeaturesC_nil, nativeCompareFaces_error⟩

/-- **C3 (counterexample).** On a concrete 3×3 region, the sections the
extractor concatenates are not the spec's five-section layout: the code
assembles only three sections (67 values), never the texture and edge
sections (99 values in total). -/
theorem claim3_counterexample :
    (faceFeatureSections ⟨3, 3, 1, fun _ _ => 0⟩).flatten ≠
      specFiveSectionLayout ⟨3, 3, 1, fun _ _ => 0⟩ := by
  intro h
  have hl := congrArg List.length h
  simp only [faceFeatureSections, specFiveSectionLayout, List.flatten, List.append_nil,
    List.length_append, length_extractOptimizedSkinTone,
    length_extractOptimizedSpatialFeatures, length_extractOptimizedHistogram,
    length_extractTextureFeatures, length_extractEdgeFeatures] at hl
  omega

/-- **C3 (amended).** Every vector the in-use feature extractor assembles
consists of exactly three sections, concatenated in the order skin tone
(16 values), spatial colour grid (27 values), colour histogram (24 values)
— 67 values in total; the texture and edge sections exist in the source but
are not part of the layout. -/
theorem claim3_three_section_layout (bm : Bitmap) :
    (faceFeatureSections bm).flatten =
      extractOptimizedSkinTone bm ++ extractOptimizedSpatialFeatures bm ++
        extractOptimizedHistogram bm ∧
    ((faceFeatureSections bm).flatten).length = 67 ∧
    (faceFeatureSections bm).map List.length = [16, 27, 24] := by
  refine ⟨by simp [faceFeatureSections], ?_, ?_⟩
  · simp [faceFeatureSections, length_extractOptimizedSkinTone,
      length_extractOptimizedSpatialFeatures, length_extractOptimizedHistogram]
  · simp [faceFeatureSections, length_extractOptimizedSkinTone,
      length_extractOptimizedSpatialFeatures, length_extractOptimizedHistogram]

/-- For equal-length vectors, the truncating zip of the source coincides
with the index-by-index full-vector sum of the spec. -/
lemma zip_sum_eq_ofFn_sum (v1 v2 : List ℝ) (h : v1.length = v2.length) :
    ((v1.zip v2).map fun p => (p.1 - p.2) * (p.1 - p.2)).sum =
      (List.ofFn fun i : Fin v1.length =>
        (v1.get i - v2.getD (i : ℕ) 0) * (v1.get i - v2.getD (i : ℕ) 0)).sum := by
  induction v1 generalizing v2 with
  | nil => simp
  | cons a as ih =>
    cases v2 with
    | nil => simp at h
    | cons b bs =>
      have h' : as.length = bs.length := by simpa using h
      simp only [List.zip_cons_cons, List.map_cons, List.sum_cons, List.ofFn_succ,
        List.get_cons_succ, List.getD_cons_succ, List.getD_cons_zero, Fin.val_succ,
        Fin.val_zero, List.get_cons_zero]
      rw [ih bs h']
      rfl

/-- For equal-length vectors, the source's distance is the spec's distance. -/
lemma calculateEuclideanDistance_eq_spec (v1 v2 : List ℝ) (h : v1.length = v2.length) :
    calculateEuclideanDistance v1 v2 = specEuclideanDistance v1 v2 := by
  unfold calculateEuclideanDistance specEuclideanDistance
  rw [zip_sum_eq_ofFn_sum v1 v2 h]

/-- **C4.** Claimed: mismatched-length vectors raise a `ComparisonError`.
The code instead truncates silently: on `[0]` against `[0, 5]` it returns
the score 0 — the distance of the common prefix, ignoring the second
component entirely — exactly where the spec's scorer signals
`ComparisonError`. -/
theorem claim4_silent_truncation :
    calculateEuclideanDistance [(0 : ℝ)] [0, 5] = 0 ∧
    calculateEuclideanDistance [(0 : ℝ)] [0, 5] = calculateEuclideanDistance [0] [0] ∧
    specSimilarityScore 5 [(0 : ℝ)] [0, 5] = Except.error "ComparisonError" := by
  refine ⟨?_, ?_, ?_⟩
  · simp [calculateEuclideanDistance]
  · simp [calculateEuclideanDistance]
  · simp [specSimilarityScore]

/-- **C7.** For equal-length feature vectors, the confidence computed on
each native path is exactly the spec formula `(1 - min(d / scale, 1)) * 100`
with the full-vector Euclidean distance `d`, with scale 5.0 in face-region
mode and scale 3.5 in fallback mode. -/
theorem claim7_confidence_formula (v1 v2 : List ℝ) (h : v1.length = v2.length) :
    specSimilarityScore 5 v1 v2 = Except.ok (faceCompareResult v1 v2).confidence ∧
    specSimilarityScore 3.5 v1 v2 = Except.ok (fallbackCompareResult v1 v2).confidence := by
  constructor
  · simp only [specSimilarityScore, if_pos h, faceCompareResult,
      calculateEuclideanDistance_eq_spec v1 v2 h]
  · simp only [specSimilarityScore, if_pos h, fallbackCompareResult,
      calculateEuclideanDistance_eq_spec v1 v2 h]

/-- Witness for C7 at the concrete equal-length pair `[0]`, `[0]`. -/
theorem claim7_confidence_formula_witness :
    [(0 : ℝ)].length = [(0 : ℝ)].length ∧
    specSimilarityScore 5 [(0 : ℝ)] [0] = Except.ok (faceCompareResult [0] [0]).confidence ∧
    specSimilarityScore 3.5 [(0 : ℝ)] [0] =
      Except.ok (fallbackCompareResult [0] [0]).confidence :=
  ⟨rfl, (claim7_confidence_formula [0] [0] rfl).1, (claim7_confidence_formula [0] [0] rfl).2⟩

/-- **C8.** On both native paths the decision is exactly the threshold
comparison: `isMatch` holds iff confidence ≥ 70 in face-region mode and iff
confidence ≥ 85 in fallback mode. -/
theorem claim8_thresholds (f1 f2 : List ℝ) :
    ((faceCompareResult f1 f2).isMatch = true ↔
      70 ≤ (faceCompareResult f1 f2).confidence) ∧
    ((fallbackCompareResult f1 f2).isMatch = true ↔
      85 ≤ (fallbackCompareResult f1 f2).confidence) := by
  constructor
  · simp [faceCompareResult]
  · simp [fallbackCompareResult]

/-- The native confidence formula is bounded in [0, 100] for any
nonnegative distance and positive scale. -/
lemma nativeConfidence_bounds (d scale : ℝ) (hd : 0 ≤ d) (hs : 0 < scale) :
    0 ≤ (1 - min (d / scale) 1) * 100 ∧ (1 - min (d / scale) 1) * 100 ≤ 100 := by
  have h1 : 0 ≤ min (d / scale) 1 := le_min (div_nonneg hd hs.le) zero_le_one
  have h2 : min (d / scale) 1 ≤ 1 := min_le_right _ _
  constructor <;> nlinarith

/-- Bounds for the main branch of the JS fallback. -/
lemma jsMainBranch_bounds (sim patt : ℚ) (hsim : -1 ≤ sim) (hp : 0 ≤ patt) :
    -100 ≤ min ((sim * 0.2 + patt * 0.8) * 100) 100 ∧
      min ((sim * 0.2 + patt * 0.8) * 100) 100 ≤ 100 := by
  refine ⟨le_min (by nlinarith) (by norm_num), min_le_right _ _⟩

/-- Every non-NaN JS byte-pattern fallback score lies in [−100, 100]. -/
lemma optimizedFallbackComparison_bounds (img1 img2 : List ℕ) (c : ℚ)
    (h : optimizedFallbackComparison img1 img2 = some c) :
    -100 ≤ c ∧ c ≤ 100 := by
  simp only [optimizedFallbackComparison] at h
  have h1 : (0 : ℚ) ≤ (img1.length : ℚ) := Nat.cast_nonneg _
  have h2 : (0 : ℚ) ≤ (img2.length : ℚ) := Nat.cast_nonneg _
  set q : ℚ :=
    |(img1.length : ℚ) - (img2.length : ℚ)| /
      (((img1.length : ℚ) + (img2.length : ℚ)) / 2) with hqdef
  split_ifs at h with havg hlt hcp
  · -- early size-mismatch return (the `none = some c` cases close themselves)
    have hq0 : 0 ≤ q := div_nonneg (abs_nonneg _) (by positivity)
    have havg' : (0 : ℚ) < ((img1.length : ℚ) + (img2.length : ℚ)) / 2 :=
      lt_of_le_of_ne (by positivity) (Ne.symm havg)
    have hq2 : q ≤ 2 := by
      rw [hqdef, div_le_iff₀ havg', abs_le]
      constructor <;> nlinarith
    have hc : (1 - q) * 100 = c := Option.some.inj h
    constructor <;> nlinarith
  · -- main branch
    have hc := Option.some.inj h
    have hq0 : 0 ≤ q := div_nonneg (abs_nonneg _) (by positivity)
    rw [← hc]
    exact jsMainBranch_bounds (1 - q) _ (by linarith)
      (div_nonneg (Nat.cast_nonneg _) (Nat.cast_nonneg _))

/-- The sample-point list is nonempty whenever the shorter input is
nonempty: position 0 of the first chunk always survives the filter. -/
lemma jsCheckPoints_ne_nil (img1 img2 : List ℕ)
    (h : 1 ≤ min img1.length img2.length) : jsCheckPoints img1 img2 ≠ [] := by
  have hchunk : 0 < ⌊jsSamplePointsThird⌋.toNat := by
    have h1 : (1 : ℤ) ≤ ⌊jsSamplePointsThird⌋ :=
      Int.le_floor.mpr (by norm_num [jsSamplePointsThird])
    omega
  have h0 : (0 : ℚ) ∈ jsCheckPoints img1 img2 := by
    simp only [jsCheckPoints, List.mem_filter, List.mem_append, List.mem_map]
    refine ⟨Or.inl (Or.inl ⟨0, List.mem_range.mpr hchunk, by simp⟩), ?_⟩
    simp only [decide_eq_true_eq]
    exact_mod_cast Nat.lt_of_lt_of_le Nat.zero_lt_one h
  exact List.ne_nil_of_mem h0

/-- The JS byte-pattern fallback confidence is NaN exactly when both inputs
are empty. -/
lemma optimizedFallbackComparison_none_iff (img1 img2 : List ℕ) :
    optimizedFallbackComparison img1 img2 = none ↔ img1 = [] ∧ img2 = [] := by
  constructor
  · intro h
    simp only [optimizedFallbackComparison] at h
    split_ifs at h with havg hlt hcp
    · have hsum : (img1.length : ℚ) + (img2.length : ℚ) = 0 := by
        rcases div_eq_zero_iff.mp havg with h0 | h0
        · exact h0
        · exact absurd h0 (by norm_num)
      have hlen : img1.length + img2.length = 0 := by exact_mod_cast hsum
      exact ⟨List.length_eq_zero.mp (by omega), List.length_eq_zero.mp (by omega)⟩
    · exfalso
      rcases Nat.eq_zero_or_pos (min img1.length img2.length) with hmin | hmin
      · -- one input empty, the other not: the size similarity is −1 and the
        -- early return would already have fired
        have hsum : ¬((img1.length : ℚ) + (img2.length : ℚ) = 0) := by
          intro h0
          exact havg (by rw [h0]; norm_num)
        apply hlt
        rcases Nat.min_eq_zero_iff.mp hmin with h1 | h1
        · have h1q : (img1.length : ℚ) = 0 := by exact_mod_cast h1
          have h2q : (0 : ℚ) < (img2.length : ℚ) := by
            rcases lt_or_eq_of_le (Nat.cast_nonneg img2.length : (0:ℚ) ≤ _) with hq | hq
            · exact hq
            · exact absurd (by rw [h1q, ← hq]; ring) hsum
          have hs : (1 : ℚ) - |(img1.length : ℚ) - (img2.length : ℚ)| /
              (((img1.length : ℚ) + (img2.length : ℚ)) / 2) = -1 := by
            rw [h1q, zero_sub, abs_neg, abs_of_pos h2q, zero_add]
            field_simp
            norm_num
          rw [hs]; norm_num
        · have h1q : (img2.length : ℚ) = 0 := by exact_mod_cast h1
          have h2q : (0 : ℚ) < (img1.length : ℚ) := by
            rcases lt_or_eq_of_le (Nat.cast_nonneg img1.length : (0:ℚ) ≤ _) with hq | hq
            · exact hq
            · exact absurd (by rw [h1q, ← hq]; ring) hsum
          have hs : (1 : ℚ) - |(img1.length : ℚ) - (img2.length : ℚ)| /
              (((img1.length : ℚ) + (img2.length : ℚ)) / 2) = -1 := by
            rw [h1q, sub_zero, abs_of_pos h2q, add_zero]
            field_simp
            norm_num
          rw [hs]; norm_num
      · exact jsCheckPoints_ne_nil img1 img2 hmin (List.length_eq_zero.mp hcp)
  · rintro ⟨rfl, rfl⟩
    simp [optimizedFallbackComparison]

/-- **C5 (counterexample).** The claimed invariant confidence ∈ [0, 100]
fails on the JS byte-pattern fallback twice over: inputs of lengths 4 and 1
take the early size-mismatch return, which is not clamped below and yields
−20 (−19.999999999999996 under double rounding — negative either way), and
two empty inputs yield a NaN confidence (`none`), which is in no interval
at all. -/
theorem claim5_counterexample :
    optimizedFallbackComparison [0, 0, 0, 0] [0] = some (-20) ∧
      optimizedFallbackComparison [] [] = none := by
  constructor
  · norm_num [optimizedFallbackComparison]
  · simp [optimizedFallbackComparison]

/-- **C5 (amended).** The native face-region and native fallback confidences
always lie in [0, 100].  The JS byte-pattern fallback confidence is NaN
exactly when both inputs are empty (its 0/0 size similarity propagates to
the result); every other confidence it produces lies only in [−100, 100] —
the early size-mismatch return is unclamped below and can be negative. -/
theorem claim5_confidence_ranges :
    (∀ f1 f2 : List ℝ, 0 ≤ (faceCompareResult f1 f2).confidence ∧
      (faceCompareResult f1 f2).confidence ≤ 100) ∧
    (∀ f1 f2 : List ℝ, 0 ≤ (fallbackCompareResult f1 f2).confidence ∧
      (fallbackCompareResult f1 f2).confidence ≤ 100) ∧
    (∀ (img1 img2 : List ℕ) (c : ℚ), optimizedFallbackComparison img1 img2 = some c →
      -100 ≤ c ∧ c ≤ 100) ∧
    (∀ img1 img2 : List ℕ,
      optimizedFallbackComparison img1 img2 = none ↔ img1 = [] ∧ img2 = []) := by
  refine ⟨fun f1 f2 => ?_, fun f1 f2 => ?_, optimizedFallbackComparison_bounds,
    optimizedFallbackComparison_none_iff⟩
  · exact nativeConfidence_bounds (calculateEuclideanDistance f1 f2) 5
      (Real.sqrt_nonneg _) (by norm_num)
  · exact nativeConfidence_bounds (calculateEuclideanDistance f1 f2) 3.5
      (Real.sqrt_nonneg _) (by norm_num)

/-- Witness for C5 at a concrete non-NaN input: lengths 7 and 1 take the
early return with value −50, which the amended bound covers. -/
theorem claim5_confidence_ranges_witness :
    optimizedFallbackComparison [1, 1, 1, 1, 1, 1, 1] [1] = some (-50) ∧
    (-100 : ℚ) ≤ -50 ∧ (-50 : ℚ) ≤ 100 := by
  have h : optimizedFallbackComparison [1, 1, 1, 1, 1, 1, 1] [1] = some (-50) := by
    norm_num [optimizedFallbackComparison]
  exact ⟨h, (claim5_confidence_ranges.2.2.1 _ _ _ h).1,
    (claim5_confidence_ranges.2.2.1 _ _ _ h).2⟩

/-- **C9.** For every detected box (nonnegative width and height), region
extraction fails exactly when the pad-by-30%-then-clip rectangle is
degenerate; a returned region is that rectangle — non-empty and contained in
the source bitmap — and a box lying inside the image with positive
dimensions (in particular one touching an image edge) always yields a
region, without throwing. -/
theorem claim9_region_pad_clip (bm : Bitmap) (r : Rect)
    (hw : 0 ≤ r.right - r.left) (hh : 0 ≤ r.bottom - r.top) :
    (extractFaceRegion bm r = none ↔
      clippedRight bm r - clippedLeft r ≤ 0 ∨ clippedBottom bm r - clippedTop r ≤ 0) ∧
    (∀ reg, extractFaceRegion bm r = some reg →
      0 < reg.width ∧ 0 < reg.height ∧
      (reg.width : ℤ) = clippedRight bm r - clippedLeft r ∧
      (reg.height : ℤ) = clippedBottom bm r - clippedTop r ∧
      0 ≤ clippedLeft r ∧ clippedLeft r + reg.width ≤ bm.width ∧
      0 ≤ clippedTop r ∧ clippedTop r + reg.height ≤ bm.height) ∧
    (0 ≤ r.left → r.right ≤ (bm.width : ℤ) → 0 ≤ r.top → r.bottom ≤ (bm.height : ℤ) →
      0 < r.right - r.left → 0 < r.bottom - r.top →
      (extractFaceRegion bm r).isSome = true) := by
  have hpad : 0 ≤ facePadding r :=
    Int.tdiv_nonneg (mul_nonneg (by norm_num) (le_max_of_le_left hw)) (by norm_num)
  have hL0 : 0 ≤ clippedLeft r := le_max_left 0 _
  have hT0 : 0 ≤ clippedTop r := le_max_left 0 _
  have hRW : clippedRight bm r ≤ (bm.width : ℤ) := min_le_left _ _
  have hBH : clippedBottom bm r ≤ (bm.height : ℤ) := min_le_left _ _
  refine ⟨?_, ?_, ?_⟩
  · simp only [extractFaceRegion]
    split_ifs with hcond
    · exact iff_of_true rfl hcond
    · exact iff_of_false (by simp) hcond
  · intro reg hreg
    simp only [extractFaceRegion] at hreg
    split_ifs at hreg with hcond
    push_neg at hcond
    cases hreg
    refine ⟨?_, ?_, ?_, ?_, hL0, ?_, hT0, ?_⟩ <;> simp only [] <;> omega
  · intro hl hr ht hb hbw hbh
    have h5 : clippedLeft r ≤ r.left := max_le hl (by linarith)
    have h6 : r.right ≤ clippedRight bm r := le_min hr (by linarith)
    have h7 : clippedTop r ≤ r.top := max_le ht (by linarith)
    have h8 : r.bottom ≤ clippedBottom bm r := le_min hb (by linarith)
    simp only [extractFaceRegion]
    rw [if_neg]
    · rfl
    · push_neg
      constructor <;> omega

/-- Witness for C9: a 40×40 box touching the image corner at (0,0) inside a
100×100 bitmap is clipped without failing and yields a region. -/
theorem claim9_region_pad_clip_witness :
    ((0 : ℤ) ≤ Rect.right ⟨0, 0, 40, 40⟩ - Rect.left ⟨0, 0, 40, 40⟩) ∧
    (extractFaceRegion ⟨100, 100, 1, fun _ _ => 0⟩ ⟨0, 0, 40, 40⟩).isSome = true :=
  ⟨by decide,
   (claim9_region_pad_clip ⟨100, 100, 1, fun _ _ => 0⟩ ⟨0, 0, 40, 40⟩
      (by decide) (by decide)).2.2
     (by decide) (by decide) (by decide) (by decide) (by decide) (by decide)⟩

/-- **C6 (counterexample).** The cache key ignores pixel content: two 2×2
bitmaps of different colours share a key, so with an entry stored under that
key the extractor returns the stored vector for the other region — while
with no cache entry it aborts.  Cache-enabled and cache-free runs therefore
differ, and a lookup can return features that were not computed from the
queried region. -/
theorem claim6_counterexample :
    generateCacheKey ⟨2, 2, 1, fun _ _ => 255⟩ =
      generateCacheKey ⟨2, 2, 1, fun _ _ => 16711680⟩ ∧
    Bitmap.pixel ⟨2, 2, 1, fun _ _ => 16711680⟩ 0 0 ≠
      Bitmap.pixel ⟨2, 2, 1, fun _ _ => 255⟩ 0 0 ∧
    (extractFaceFeaturesC [(generateCacheKey ⟨2, 2, 1, fun _ _ => 16711680⟩, [42])]
      ⟨2, 2, 1, fun _ _ => 255⟩).1 = Except.ok [42] ∧
    (extractFaceFeaturesC [] ⟨2, 2, 1, fun _ _ => 255⟩).1 ≠ Except.ok [42] := by
  refine ⟨rfl, by decide, ?_, ?_⟩
  · simp [extractFaceFeaturesC, cacheGet, generateCacheKey]
  · rw [extractFaceFeaturesC_nil]
    simp

/-- **C6 (amended).** The shipped cache never changes any observable result
from its initial (empty) state — because extraction aborts before the cache
is ever populated, and even a completed put of a 64-element vector would be
evicted at once by the 10-unit size bound — but the key depends only on
`width * height * config`, so all regions with equal products share one
cache slot. -/
theorem claim6_cache_behaviour :
    (∀ bm : Bitmap, (extractFaceFeaturesC [] bm).1 = computeFaceFeatures bm ∧
      (extractFaceFeaturesC [] bm).2 = []) ∧
    (∀ b1 b2 : Bitmap,
      b1.width * b1.height * b1.config = b2.width * b2.height * b2.config →
      generateCacheKey b1 = generateCacheKey b2) ∧
    (∀ (key : ℕ) (v : List ℝ), v.length = 64 → cachePut key v [] = []) := by
  refine ⟨fun bm => ?_, fun b1 b2 h => ?_, fun key v hv => ?_⟩
  · rw [extractFaceFeaturesC_nil, computeFaceFeatures_error]
    exact ⟨rfl, rfl⟩
  · unfold generateCacheKey
    rw [h]
  · simp [cachePut, trimToSize, cacheSizeBytes, hv]

/-- Witness for C6 (amended) at concrete inputs: a 2×3 and a 3×2 bitmap of
the same config share a key, and putting a 64-element vector into the empty
cache leaves it empty. -/
theorem claim6_cache_behaviour_witness :
    Bitmap.width ⟨2, 3, 1, fun _ _ => 0⟩ * Bitmap.height ⟨2, 3, 1, fun _ _ => 0⟩ *
        Bitmap.config ⟨2, 3, 1, fun _ _ => 0⟩ =
      Bitmap.width ⟨3, 2, 1, fun _ _ => 9⟩ * Bitmap.height ⟨3, 2, 1, fun _ _ => 9⟩ *
        Bitmap.config ⟨3, 2, 1, fun _ _ => 9⟩ ∧
    generateCacheKey ⟨2, 3, 1, fun _ _ => 0⟩ = generateCacheKey ⟨3, 2, 1, fun _ _ => 9⟩ ∧
    (List.replicate 64 (0 : ℝ)).length = 64 ∧
    cachePut 7 (List.replicate 64 (0 : ℝ)) [] = [] := by
  refine ⟨rfl, claim6_cache_behaviour.2.1 _ _ rfl, by simp, ?_⟩
  exact claim6_cache_behaviour.2.2 7 _ (by simp)

/-- **C10.** The JS entry points are fail-closed and never reject: a native
rejection, an unavailable native module with a failed file read, or a failed
validation all resolve with `isMatch = false` and `confidence = 0`; with
both validations passing, `verifyFaceOffline` resolves with exactly what
`compareFaces` resolves with.  (Totality of every path is embodied in the
functions being total.) -/
theorem claim10_fail_closed :
    (∀ (e : String) (img1 img2 : Except String (List ℕ)),
      jsCompareFaces (some (Except.error e)) img1 img2 =
        { isMatch := false, confidence := some 0 }) ∧
    (∀ (e : String) (img2 : Except String (List ℕ)),
      jsCompareFaces none (Except.error e) img2 =
        { isMatch := false, confidence := some 0 }) ∧
    (∀ (s1 : List ℕ) (e : String),
      jsCompareFaces none (Except.ok s1) (Except.error e) =
        { isMatch := false, confidence := some 0 }) ∧
    (∀ stat1 stat2 native img1 img2, validateFaceInImage stat1 = false →
      verifyFaceOffline stat1 stat2 native img1 img2 =
        { isMatch := false, confidence := some 0 }) ∧
    (∀ stat1 stat2 native img1 img2, validateFaceInImage stat1 = true →
      validateFaceInImage stat2 = false →
      verifyFaceOffline stat1 stat2 native img1 img2 =
        { isMatch := false, confidence := some 0 }) ∧
    (∀ stat1 stat2 native img1 img2, validateFaceInImage stat1 = true →
      validateFaceInImage stat2 = true →
      verifyFaceOffline stat1 stat2 native img1 img2 = jsCompareFaces native img1 img2) := by
  refine ⟨fun e img1 img2 => rfl, fun e img2 => ?_, fun s1 e => rfl,
    fun stat1 stat2 native img1 img2 h => ?_,
    fun stat1 stat2 native img1 img2 h1 h2 => ?_,
    fun stat1 stat2 native img1 img2 h1 h2 => ?_⟩
  · cases img2 <;> rfl
  · simp [verifyFaceOffline, h]
  · simp [verifyFaceOffline, h1, h2]
  · simp [verifyFaceOffline, h1, h2]

/-- Witness for C10: a valid 100 KB saved photo, a failed stat for the
captured photo — the verification resolves fail-closed. -/
theorem claim10_fail_closed_witness :
    validateFaceInImage (Except.ok 102400) = true ∧
    validateFaceInImage (Except.error "stat failed") = false ∧
    verifyFaceOffline (Except.ok 102400) (Except.error "stat failed") none
      (Except.ok []) (Except.ok []) = { isMatch := false, confidence := some 0 } := by
  have h1 : validateFaceInImage (Except.ok 102400) = true := by
    norm_num [validateFaceInImage]
  have h2 : validateFaceInImage (Except.error "stat failed") = false := rfl
  exact ⟨h1, h2, claim10_fail_closed.2.2.2.2.1 _ _ none (Except.ok []) (Except.ok []) h1 h2⟩

/-- **C1.** Claimed: an identical pair yields confidence 100 and a match.
In fact, for a concrete decodable image used twice (one detected face box in
each copy), the native `compareFaces` rejects — feature extraction overflows
its 64-element array — and the JS wrapper converts the rejection into
`isMatch = false`, `confidence = 0`, not 100. -/
theorem claim1_identical_pair_rejects :
    (∃ e, (nativeCompareFaces [] (some ⟨100, 100, 1, fun _ _ => 11842740⟩)
      (some ⟨100, 100, 1, fun _ _ => 11842740⟩)
      (Except.ok [⟨20, 20, 60, 60⟩]) (Except.ok [⟨20, 20, 60, 60⟩])).1 =
        Except.error e) ∧
    jsCompareFaces (some (nativeCompareFaces [] (some ⟨100, 100, 1, fun _ _ => 11842740⟩)
      (some ⟨100, 100, 1, fun _ _ => 11842740⟩)
      (Except.ok [⟨20, 20, 60, 60⟩]) (Except.ok [⟨20, 20, 60, 60⟩])).1)
      (Except.ok []) (Except.ok []) = { isMatch := false, confidence := some 0 } := by
  obtain ⟨e, he⟩ := nativeCompareFaces_error
    (some ⟨100, 100, 1, fun _ _ => 11842740⟩) (some ⟨100, 100, 1, fun _ _ => 11842740⟩)
    (Except.ok [⟨20, 20, 60, 60⟩]) (Except.ok [⟨20, 20, 60, 60⟩])
  refine ⟨⟨e, by rw [he]⟩, ?_⟩
  rw [he]
  rfl

end PhotoLelo
